import Mathlib

/-
Verification development for the MyFitnessGenie repository.

The TypeScript sources are shallowly embedded: JS numbers are modelled as
rationals, JS machine floats idealized as exact rational or real
arithmetic; Math.sqrt is modelled with Real.sqrt.  Optional or possibly
missing JS values are Option, and JS truthiness on numbers and strings is
made explicit through the helpers below.
-/

/- ---------------- JavaScript semantics helpers ---------------- -/

/-- Math.round: rounds half toward positive infinity. -/
def jsRound (q : ℚ) : ℤ := ⌊q + 1/2⌋

/-- Math.floor. -/
def jsFloor (q : ℚ) : ℤ := ⌊q⌋

/-- Truncation toward zero, as used by the JS remainder operator. -/
def jsTrunc (q : ℚ) : ℤ := if q < 0 then ⌈q⌉ else ⌊q⌋

/-- The JS remainder a % b (sign of the dividend). -/
def jsFmod (a b : ℚ) : ℚ := a - b * (jsTrunc (a / b) : ℚ)

/-- JS truthiness of an optional number: undefined, NaN and 0 are falsy. -/
def truthyQ : Option ℚ → Bool
  | none => false
  | some v => v != 0

/-- JS truthiness of an optional string: undefined and the empty string are falsy. -/
def truthyS : Option String → Bool
  | none => false
  | some s => s != ""

/-- The JS expression x || d on an optional number x. -/
def jsOrQ (x : Option ℚ) (d : ℚ) : ℚ :=
  if truthyQ x then x.getD d else d

/- ---------------- src/types/user-profile.ts ---------------- -/

/-- UserProfile of src/types/user-profile.ts.  The string-typed enums of the
source (gender, goal, activityLevel) are kept as strings because the
calculator functions compare them as strings. -/
structure UserProfile where
  age : ℚ
  gender : String
  weight : ℚ
  height : ℚ
  goal : String
  targetWeight : Option ℚ
  activityLevel : String
  dailyCalories : Option ℚ
  proteinTarget : Option ℚ

namespace SimpleCalculator

/-- SimpleCalculator.calculateBMR (Mifflin-St Jeor). -/
def calculateBMR (weight height age : ℚ) (gender : String) : ℚ :=
  let weightKg := weight * (453592/1000000)
  let heightCm := height * (254/100)
  let baseRate := 10 * weightKg + (625/100) * heightCm - 5 * age
  if gender = "male" then baseRate + 5 else baseRate - 161

/-- The multipliers table lookup of calculateTDEE, including the JS
fallback multipliers[activityLevel] || 1.2 for an unrecognized level. -/
def activityMultiplier (activityLevel : String) : ℚ :=
  if activityLevel = "sedentary" then 12/10
  else if activityLevel = "lightly_active" then 1375/1000
  else if activityLevel = "moderately_active" then 155/100
  else if activityLevel = "very_active" then 1725/1000
  else 12/10

/-- SimpleCalculator.calculateTDEE. -/
def calculateTDEE (bmr : ℚ) (activityLevel : String) : ℚ :=
  (jsRound (bmr * activityMultiplier activityLevel) : ℚ)

/-- SimpleCalculator.calculateCalorieTarget. -/
def calculateCalorieTarget (tdee : ℚ) (goal : String) : ℚ :=
  if goal = "lose_weight" then (jsRound (tdee - 500) : ℚ)
  else if goal = "gain_muscle" then (jsRound (tdee + 300) : ℚ)
  else tdee

/-- SimpleCalculator.calculateProteinTarget. -/
def calculateProteinTarget (weight : ℚ) (goal : String) : ℚ :=
  if goal = "lose_weight" ∨ goal = "gain_muscle" then (jsRound weight : ℚ)
  else (jsRound (weight * (8/10)) : ℚ)

end SimpleCalculator

/-- The arguments of createUserProfile (basicInfo). -/
structure BasicInfo where
  age : ℚ
  gender : String
  weight : ℚ
  height : ℚ
  goal : String
  activityLevel : String
  targetWeight : Option ℚ

/-- createUserProfile of src/types/user-profile.ts. -/
def createUserProfile (basicInfo : BasicInfo) : UserProfile :=
  let bmr := SimpleCalculator.calculateBMR basicInfo.weight basicInfo.height
    basicInfo.age basicInfo.gender
  let tdee := SimpleCalculator.calculateTDEE bmr basicInfo.activityLevel
  let dailyCalories := SimpleCalculator.calculateCalorieTarget tdee basicInfo.goal
  let proteinTarget := SimpleCalculator.calculateProteinTarget basicInfo.weight basicInfo.goal
  { age := basicInfo.age, gender := basicInfo.gender, weight := basicInfo.weight,
    height := basicInfo.height, goal := basicInfo.goal,
    targetWeight := basicInfo.targetWeight, activityLevel := basicInfo.activityLevel,
    dailyCalories := some dailyCalories, proteinTarget := some proteinTarget }

/- ---------------- src/coaching/weight-loss-coach.ts ---------------- -/

inductive Urgency where
  | low
  | medium
  | high
deriving DecidableEq, Repr

/-- WeightLossAssessment.  The reasoning field of the source (a human
message interpolating the same numbers through float formatting) carries
no additional decision content and is not modelled. -/
structure WeightLossAssessment where
  recommendation : String
  actionItems : List String
  urgency : Urgency
deriving DecidableEq, Repr

/-- RecentProgress of src/coaching/weight-loss-coach.ts. -/
structure RecentProgress where
  daysTracked : ℚ
  averageWeightChange : ℚ
  workoutsCompleted : ℚ
  workoutsPlanned : ℚ
  averageCalories : Option ℚ

namespace WeightLossCoach

/-- Scenario 1 template. -/
def excellentProgressAssessment : WeightLossAssessment :=
  { recommendation := "Excellent progress! Keep doing exactly what you\x27re doing.",
    actionItems :=
      ["Continue your current eating and workout routine",
       "Take progress photos to track visual changes",
       "Consider adding one new healthy habit to build momentum"],
    urgency := .low }

/-- Scenario 2 template. -/
def plateauAssessment : WeightLossAssessment :=
  { recommendation := "Your weight loss has stalled. Time to make adjustments.",
    actionItems :=
      ["Reduce daily calories by 200 (temporarily)",
       "Add 10 minutes to your cardio sessions",
       "Track your food more carefully for a week",
       "Consider a \x27refeed day\x27 this weekend to reset metabolism"],
    urgency := .medium }

/-- Scenario 3 template. -/
def losingTooFastAssessment : WeightLossAssessment :=
  { recommendation := "You\x27re losing weight too quickly. Let\x27s slow down for better health.",
    actionItems :=
      ["Increase daily calories by 200-300",
       "Add more protein to preserve muscle mass",
       "Focus on strength training to maintain muscle",
       "Monitor energy levels closely"],
    urgency := .high }

/-- Scenario 4 template. -/
def adherenceAssessment : WeightLossAssessment :=
  { recommendation := "Let\x27s focus on building a sustainable workout habit first.",
    actionItems :=
      ["Reduce workout time to 15-20 minutes",
       "Choose activities you actually enjoy",
       "Set workout reminders on your phone",
       "Find an accountability partner or join a group"],
    urgency := .high }

/-- Scenario 5 template. -/
def caloriesTooHighAssessment : WeightLossAssessment :=
  { recommendation := "Your workouts are great, but calories are too high for weight loss.",
    actionItems :=
      ["Focus on protein at each meal to feel fuller",
       "Drink a large glass of water before meals",
       "Use smaller plates and measure portions",
       "Plan your meals in advance"],
    urgency := .medium }

/-- Default template. -/
def insufficientDataAssessment : WeightLossAssessment :=
  { recommendation := "I need more information to give you the best advice.",
    actionItems :=
      ["Weigh yourself daily at the same time",
       "Log your workouts when you complete them",
       "Track calories for at least 3 days",
       "Rate your energy and motivation daily (1-10)"],
    urgency := .low }

/-- The adherence rate computed at the top of assessProgress:
workoutsCompleted / workoutsPlanned, and 0 when workoutsPlanned is 0. -/
def workoutAdherence (progress : RecentProgress) : ℚ :=
  if progress.workoutsPlanned > 0
  then progress.workoutsCompleted / progress.workoutsPlanned
  else 0

/-- WeightLossCoach.assessProgress: the early-return decision tree,
translated condition by condition from the source (actualWeeklyLoss is
progress.averageWeightChange). -/
def assessProgress (profile : UserProfile) (progress : RecentProgress) :
    WeightLossAssessment :=
  if progress.averageWeightChange ≤ -(1/2) ∧ progress.averageWeightChange ≥ -2 ∧
      workoutAdherence progress ≥ 8/10 then
    excellentProgressAssessment
  else if progress.averageWeightChange > -(2/10) ∧ workoutAdherence progress ≥ 7/10 then
    plateauAssessment
  else if progress.averageWeightChange < -(5/2) then
    losingTooFastAssessment
  else if workoutAdherence progress < 5/10 then
    adherenceAssessment
  else if truthyQ progress.averageCalories = true ∧
      progress.averageCalories.getD 0 > jsOrQ profile.dailyCalories 0 + 200 then
    caloriesTooHighAssessment
  else
    insufficientDataAssessment

/-- First-match evaluation of an ordered (condition, outcome) rule list. -/
def firstMatch {α : Type} : List (Bool × α) → α → α
  | [], d => d
  | (c, a) :: rest, d => if c then a else firstMatch rest d

/-- Modelled from the claim wording for comparison with assessProgress: the
same six rules written as an explicit ordered rule list in which the first
matching rule wins. -/
def assessProgressSpec (profile : UserProfile) (progress : RecentProgress) :
    WeightLossAssessment :=
  firstMatch
    [ (decide (progress.averageWeightChange ≤ -(1/2) ∧
        progress.averageWeightChange ≥ -2 ∧ workoutAdherence progress ≥ 8/10),
        excellentProgressAssessment),
      (decide (progress.averageWeightChange > -(2/10) ∧
        workoutAdherence progress ≥ 7/10), plateauAssessment),
      (decide (progress.averageWeightChange < -(5/2)), losingTooFastAssessment),
      (decide (workoutAdherence progress < 5/10), adherenceAssessment),
      (decide (truthyQ progress.averageCalories = true ∧
        progress.averageCalories.getD 0 > jsOrQ profile.dailyCalories 0 + 200),
        caloriesTooHighAssessment) ]
    insufficientDataAssessment

/-- WeightLossCoach.getDailyAdvice.  The source guard
if (!lastWorkout || !daysAgo) uses JS truthiness, so daysAgo = 0 takes the
guard branch. -/
def getDailyAdvice (_profile : UserProfile) (lastWorkout : Option String)
    (daysAgo : Option ℚ) : String :=
  if ¬ (truthyS lastWorkout = true) ∨ ¬ (truthyQ daysAgo = true) then
    "Ready to start your fitness journey? Let\x27s begin with a simple 20-minute walk today!"
  else if daysAgo.getD 0 = 0 then
    "Great job on today\x27s workout! Make sure to get good protein within 2 hours and stay hydrated."
  else if daysAgo.getD 0 = 1 then
    "Perfect timing for your next workout! Your muscles have recovered. What sounds good today?"
  else if daysAgo.getD 0 ≥ 3 then
    "It\x27s been a few days since your last workout. No judgment! Let\x27s get back on track with something easy today."
  else
    "You\x27re in a great routine! Keep up the consistency - that\x27s the key to success."

end WeightLossCoach

/- ---------------- src/index.ts : pace formatting ---------------- -/

/-- String.padStart(2, "0") for the decimal rendering of an integer
(never applied to an empty string). -/
def padStart2 (s : String) : String :=
  if s.length < 2 then "0" ++ s else s

/-- MyFitnessGenieServer.formatPace. -/
def formatPace (secondsPerKm : ℚ) : String :=
  let minutes := jsFloor (secondsPerKm / 60)
  let seconds := jsRound (jsFmod secondsPerKm 60)
  toString minutes ++ ":" ++ padStart2 (toString seconds) ++ "/km"

/-- The fields of a Strava activity record used by the recent-activities
summary. -/
structure StravaActivity where
  type : String
  distance : ℚ
  moving_time : ℚ

/-- The avg_pace_per_km field of the getRecentActivities summary:
computed only for runs with positive distance, null otherwise. -/
def avgPacePerKm (activity : StravaActivity) : Option String :=
  if activity.type = "Run" ∧ activity.distance > 0 then
    some (formatPace (activity.moving_time / (activity.distance / 1000)))
  else
    none

/- ---------------- src/token-manager.ts ---------------- -/

/-- The in-memory state of StravaTokenManager. -/
structure TMState where
  clientId : String
  clientSecret : String
  refreshToken : String
  accessToken : String
  expiresAt : ℤ

/-- The outcome of the token-validation probe (the lightweight athlete
request of isTokenValid): success, an HTTP error response with a status,
or an error without a response (network failure, timeout). -/
inductive ValidationOutcome where
  | success
  | httpError (status : ℕ)
  | networkError
deriving DecidableEq

/-- One element of the errors array of a Strava OAuth error response. -/
structure StravaApiError where
  code : String
  field : String
deriving DecidableEq

/-- The outcome of the POST to the OAuth token endpoint in
refreshAccessToken: new tokens, or a failure carrying an optional HTTP
status and an optional errors array. -/
inductive RefreshOutcome where
  | success (accessToken refreshToken : String) (expiresAt : ℤ)
  | failure (status : Option ℕ) (errors : Option (List StravaApiError))

/-- StravaTokenManager.isTokenValid: true on success, false exactly when
the response status is 401, and true (assume valid) on any other error. -/
def isTokenValid (v : ValidationOutcome) : Bool :=
  match v with
  | .success => true
  | .httpError status => if status = 401 then false else true
  | .networkError => true

/-- The fatal error message thrown when the refresh token itself is rejected. -/
def fatalRefreshMsg : String :=
  "Refresh token is invalid. You need to re-authorize the app by running: npm run build && node dist/auth-setup.js"

/-- The generic error message thrown on any other refresh failure. -/
def genericRefreshMsg : String :=
  "Token refresh failed. You may need to re-authorize the app."

/-- StravaTokenManager.refreshAccessToken: on success it stores the new
token pair and returns the access token; on failure it throws the fatal
re-authorize error exactly when the response has status 400 and an errors
array containing code invalid for the refresh_token field, and the
generic retryable error otherwise. -/
def refreshAccessToken (st : TMState) (r : RefreshOutcome) :
    Except String (String × TMState) :=
  match r with
  | .success newAccess newRefresh expiresAt =>
      .ok (newAccess,
        { st with accessToken := newAccess, refreshToken := newRefresh,
                  expiresAt := expiresAt * 1000 })
  | .failure status errors =>
      match errors with
      | some errs =>
          if status = some 400 then
            if errs.any (fun e => e.code == "invalid" && e.field == "refresh_token")
            then .error fatalRefreshMsg
            else .error genericRefreshMsg
          else .error genericRefreshMsg
      | none => .error genericRefreshMsg

/-- StravaTokenManager.getValidAccessToken, with the number of refresh
attempts made recorded in the second component.  The cached token is
validated only when it is truthy (nonempty). -/
def getValidAccessToken (st : TMState) (v : ValidationOutcome)
    (r : RefreshOutcome) : Except String String × ℕ :=
  if (st.accessToken != "") && isTokenValid v then
    (.ok st.accessToken, 0)
  else
    match refreshAccessToken st r with
    | .ok (tok, _) => (.ok tok, 1)
    | .error msg => (.error msg, 1)

/- ---------------- src/tools/rag-coaching-tools.ts : progress store ---------------- -/

/-- One element of the progressHistory array. -/
structure ProgressEntry where
  date : String
  weight : ℚ
  workouts : ℚ
  calories : Option ℚ
deriving DecidableEq

/-- The arguments of the log_progress tool. -/
structure LogArgs where
  weight : Option ℚ
  workoutsToday : Option ℚ
  calories : Option ℚ
  notes : Option String

/-- The field updates applied to an existing entry for today: each field
is overwritten only when the corresponding argument is truthy
(if (args.weight) ... and so on in the source). -/
def updateEntry (args : LogArgs) (e : ProgressEntry) : ProgressEntry :=
  { e with
    weight := if truthyQ args.weight then args.weight.getD e.weight else e.weight,
    workouts := if truthyQ args.workoutsToday then args.workoutsToday.getD e.workouts else e.workouts,
    calories := if truthyQ args.calories then args.calories else e.calories }

/-- The new entry pushed for a date with no existing entry:
weight defaults to the profile baseline weight (args.weight || userProfile.weight)
and workouts to zero (args.workoutsToday || 0). -/
def newProgressEntry (profile : UserProfile) (today : String) (args : LogArgs) :
    ProgressEntry :=
  { date := today,
    weight := jsOrQ args.weight profile.weight,
    workouts := jsOrQ args.workoutsToday 0,
    calories := args.calories }

/-- The date-keyed upsert of TrueRAGCoachingTools.logProgress: the source
finds the index of the first entry whose date is today and mutates its
supplied fields, and pushes a new defaulted entry at the end when there is
none.  Written as structural recursion over the history list. -/
def logProgress (profile : UserProfile) (today : String) (args : LogArgs) :
    List ProgressEntry → List ProgressEntry
  | [] => [newProgressEntry profile today args]
  | e :: rest =>
      if e.date = today then updateEntry args e :: rest
      else e :: logProgress profile today args rest

/-- A sequence of logProgress calls starting from the empty history,
each call supplying its calendar date and arguments. -/
def logSequence (profile : UserProfile) (calls : List (String × LogArgs)) :
    List ProgressEntry :=
  calls.foldl (fun h c => logProgress profile c.1 c.2 h) []

/-- The entry stored for a given date (the findIndex key of the source). -/
def entryFor (today : String) (history : List ProgressEntry) : Option ProgressEntry :=
  history.find? (fun e => e.date = today)

/- ---------------- src/index.ts : protocol front-end ---------------- -/

/-- One element of the content array of a tool response. -/
structure ContentItem where
  type : String
  text : String
deriving DecidableEq

/-- The uniform response envelope returned to the protocol layer. -/
structure CallResponse where
  content : List ContentItem
deriving DecidableEq

/-- The arguments object of an incoming tool call; only the fields the
dispatcher itself inspects are listed. -/
structure CallArgs where
  count : Option ℚ
  days : Option ℚ
  activity_id : Option String

/-- The names in the switch of the CallToolRequestSchema handler. -/
def toolNames : List String :=
  ["get_recent_activities", "get_athlete_profile", "analyze_training_load",
   "get_activity_details", "setup_user_profile", "log_progress",
   "get_coaching_advice", "add_website_knowledge", "add_file_knowledge",
   "search_knowledge", "get_rag_stats"]

/-- The switch of the CallToolRequestSchema handler.  env models the
underlying tool implementations (which may throw); the Bool records
whether an implementation was invoked at all.  Calling
get_activity_details with a missing (falsy) activity_id throws the named
validation error before the implementation runs, and an unknown name
throws the Unknown tool error. -/
def dispatchTool (env : String → CallArgs → Except String CallResponse)
    (name : String) (args : CallArgs) : Except String CallResponse × Bool :=
  if name = "get_activity_details" then
    if truthyS args.activity_id then (env name args, true)
    else (.error "activity_id is required", false)
  else if name ∈ toolNames then (env name args, true)
  else (.error ("Unknown tool: " ++ name), false)

/-- The try/catch of the CallToolRequestSchema handler: every thrown error
is converted into a successful response whose single text payload is
Error: followed by the message. -/
def handleCallTool (env : String → CallArgs → Except String CallResponse)
    (name : String) (args : CallArgs) : CallResponse × Bool :=
  match dispatchTool env name args with
  | (.ok r, b) => (r, b)
  | (.error msg, b) => (⟨[⟨"text", "Error: " ++ msg⟩]⟩, b)

/- ---------------- src/index.ts : activity-list page sizes ---------------- -/

/-- The count argument resolution of the handler: (args as any)?.count || 10. -/
def recentActivitiesCount (count : Option ℚ) : ℚ := jsOrQ count 10

/-- The per_page parameter sent by getRecentActivities: Math.min(count, 30). -/
def recentActivitiesPerPage (count : ℚ) : ℚ := min count 30

/-- The per_page parameter sent by analyzeTrainingLoad (a literal in the
source, alongside the after timestamp filter). -/
def trainingLoadPerPage : ℚ := 50

/- ---------------- src/rag/vector-rag-system.ts and the enhanced system ---------------- -/

/-- The dot product of two JS number arrays (vec1.reduce with vec2[i]);
positions past the shorter array contribute nothing, and the two systems
only ever compare equal-length (50) vectors. -/
def dotProduct : List ℚ → List ℚ → ℚ
  | a :: v, b :: w => a * b + dotProduct v w
  | _, _ => 0

/-- cosineSimilarity, defined identically in vector-rag-system.ts and in
the enhanced system: dotProduct / (mag1 * mag2) with the JS expression
.. || 0 guarding NaN.  For equal-length vectors NaN arises exactly when a
magnitude is zero, which forces the dot product to be zero as well, so the
guard coincides with division-by-zero being zero here. -/
noncomputable def cosineSimilarity (vec1 vec2 : List ℚ) : ℝ :=
  ((dotProduct vec1 vec2 : ℚ) : ℝ) /
    (Real.sqrt ((dotProduct vec1 vec1 : ℚ) : ℝ) *
     Real.sqrt ((dotProduct vec2 vec2 : ℚ) : ℝ))

/-- DocumentChunk with its metadata fields inlined.  The embedding is
optional in the TS declaration but always present on indexed documents
(the search code reads doc.embedding!). -/
structure DocumentChunk where
  id : String
  content : String
  category : String
  source : String
  relevance_score : Option ℝ
  embedding : List ℚ

/-- The sort key of the ranking comparator: (metadata.relevance_score || 0). -/
noncomputable def scoreOf (d : DocumentChunk) : ℝ := d.relevance_score.getD 0

/-- JS String.includes as used by word.includes(keyword). -/
def jsIncludes (w kw : String) : Bool :=
  w.data.tails.any (fun t => kw.data.isPrefixOf t)

/-- Splitting a character list at whitespace, accumulating the current
fragment. -/
def wordsAux : List Char → List Char → List String
  | [], acc => [String.mk acc.reverse]
  | c :: cs, acc =>
      if c.isWhitespace then String.mk acc.reverse :: wordsAux cs []
      else wordsAux cs (c :: acc)

/-- text.toLowerCase().split on whitespace, written over the character
list of the string.  The JS regex split collapses runs of whitespace
where this keeps empty fragments; empty fragments contain no nonempty
keyword, so keyword presence is unaffected. -/
def jsWords (text : String) : List String :=
  wordsAux (text.data.map Char.toLower) []

/-- One keywords.forEach block of getMockEmbedding: set position
offset + i to 1 when some word of the text contains keyword i. -/
def applyBucket (words : List String) (keywords : List String) (offset : ℕ)
    (emb : List ℚ) : List ℚ :=
  keywords.enum.foldl
    (fun acc p =>
      if words.any (fun w => jsIncludes w p.2) then acc.set (offset + p.1) 1 else acc)
    emb

namespace VectorRag

def weightKeywords : List String := ["weight", "loss", "plateau", "deficit", "metabolism"]

def proteinKeywords : List String := ["protein", "muscle", "amino", "leucine", "synthesis"]

def exerciseKeywords : List String := ["exercise", "cardio", "zone", "heart", "rate", "training"]

def sleepKeywords : List String := ["sleep", "recovery", "hormone", "leptin", "ghrelin"]

/-- getMockEmbedding of vector-rag-system.ts: a 50-long zero vector with
the four keyword buckets written at offsets 0, 10, 20 and 30. -/
def getMockEmbedding (text : String) : List ℚ :=
  applyBucket (jsWords text) sleepKeywords 30
    (applyBucket (jsWords text) exerciseKeywords 20
      (applyBucket (jsWords text) proteinKeywords 10
        (applyBucket (jsWords text) weightKeywords 0 (List.replicate 50 0))))

end VectorRag

namespace EnhancedRag

def fitnessKeywords : List String :=
  ["fitness", "exercise", "weight", "muscle", "cardio", "nutrition", "protein"]

/-- getMockEmbedding of the enhanced (dynamic) system: a 50-long zero
vector with the single flat 7-keyword bucket at offset 0. -/
def getMockEmbedding (text : String) : List ℚ :=
  applyBucket (jsWords text) fitnessKeywords 0 (List.replicate 50 0)

end EnhancedRag

/-- The scoring map of both search functions: attach the cosine similarity
against the query embedding as each document's relevance score. -/
noncomputable def scoreDocs (queryEmbedding : List ℚ) (docs : List DocumentChunk) :
    List DocumentChunk :=
  docs.map (fun doc =>
    { doc with relevance_score := some (cosineSimilarity queryEmbedding doc.embedding) })

/-- The JS sort((a, b) => (b.relevance_score || 0) - (a.relevance_score || 0)):
a stable sort, descending by score. -/
noncomputable def sortByRelevance (docs : List DocumentChunk) : List DocumentChunk :=
  docs.insertionSort (fun a b => scoreOf b ≤ scoreOf a)

/-- TrueRAGSystem of vector-rag-system.ts (its document store). -/
structure TrueRAGSystem where
  documents : List DocumentChunk

/-- TrueRAGSystem.searchSimilarDocuments (static system, default top 3). -/
noncomputable def searchSimilarDocuments (sys : TrueRAGSystem) (query : String)
    (topK : ℕ := 3) : List DocumentChunk :=
  (sortByRelevance (scoreDocs (VectorRag.getMockEmbedding query) sys.documents)).take topK

/-- EnhancedRAGSystem (dynamic system, its document store). -/
structure EnhancedRAGSystem where
  documents : List DocumentChunk

/-- EnhancedRAGSystem.searchEnhancedKnowledge (default top 5); an empty
document store returns the empty list immediately. -/
noncomputable def searchEnhancedKnowledge (sys : EnhancedRAGSystem) (query : String)
    (topK : ℕ := 5) : List DocumentChunk :=
  if sys.documents.isEmpty then []
  else (sortByRelevance (scoreDocs (EnhancedRag.getMockEmbedding query) sys.documents)).take topK

/-- A concrete profile used for closed instances of the coaching claims. -/
def sampleProfile : UserProfile :=
  { age := 30, gender := "male", weight := 180, height := 70, goal := "lose_weight",
    targetWeight := none, activityLevel := "moderately_active",
    dailyCalories := some 2263, proteinTarget := some 180 }

/-- The basicInfo of the fixed C4 example: male, age 30, 180 lbs, 70 in,
moderately active, losing weight. -/
def sampleBasicInfo : BasicInfo :=
  { age := 30, gender := "male", weight := 180, height := 70, goal := "lose_weight",
    activityLevel := "moderately_active", targetWeight := none }

/-- A week of progress with delta -1.0 lbs per week and adherence 1.0. -/
def progressExcellent : RecentProgress :=
  { daysTracked := 7, averageWeightChange := -1, workoutsCompleted := 1,
    workoutsPlanned := 1, averageCalories := none }

/-- A week of progress with delta -0.1 lbs per week and adherence 0.9. -/
def progressPlateau : RecentProgress :=
  { daysTracked := 7, averageWeightChange := -(1/10), workoutsCompleted := 9,
    workoutsPlanned := 10, averageCalories := none }

/- ---------------- Theorems ---------------- -/

/-- C1: WeightLossCoach.assessProgress is a deterministic, order-sensitive
decision tree over the weekly weight delta and the adherence rate
(0 when workoutsPlanned is 0): it coincides everywhere with the ordered
first-match rule list assessProgressSpec (rule 1 excellent progress with
urgency low, rule 2 plateau with urgency medium, then rules 3 to 6 in
order); and concretely delta -1.0 with adherence 1.0 takes the
excellent-progress branch and delta -0.1 with adherence 0.9 takes the
plateau branch. -/
theorem assessProgress_decision_tree :
    (∀ (profile : UserProfile) (progress : RecentProgress),
      WeightLossCoach.assessProgress profile progress =
        WeightLossCoach.assessProgressSpec profile progress)
    ∧ WeightLossCoach.assessProgress sampleProfile progressExcellent =
        WeightLossCoach.excellentProgressAssessment
    ∧ (WeightLossCoach.assessProgress sampleProfile progressExcellent).urgency = Urgency.low
    ∧ WeightLossCoach.assessProgress sampleProfile progressPlateau =
        WeightLossCoach.plateauAssessment
    ∧ (WeightLossCoach.assessProgress sampleProfile progressPlateau).urgency =
        Urgency.medium := by
  have hexc : WeightLossCoach.assessProgress sampleProfile progressExcellent =
      WeightLossCoach.excellentProgressAssessment := by
    norm_num [WeightLossCoach.assessProgress, WeightLossCoach.workoutAdherence,
      progressExcellent]
  have hpl : WeightLossCoach.assessProgress sampleProfile progressPlateau =
      WeightLossCoach.plateauAssessment := by
    norm_num [WeightLossCoach.assessProgress, WeightLossCoach.workoutAdherence,
      progressPlateau]
  refine ⟨?_, hexc, by rw [hexc]; rfl, hpl, by rw [hpl]; rfl⟩
  intro pr pg
  by_cases h1 : pg.averageWeightChange ≤ -(1/2) ∧ pg.averageWeightChange ≥ -2 ∧
      WeightLossCoach.workoutAdherence pg ≥ 8/10 <;>
  by_cases h2 : pg.averageWeightChange > -(2/10) ∧
      WeightLossCoach.workoutAdherence pg ≥ 7/10 <;>
  by_cases h3 : pg.averageWeightChange < -(5/2) <;>
  by_cases h4 : WeightLossCoach.workoutAdherence pg < 5/10 <;>
  by_cases h5 : truthyQ pg.averageCalories = true ∧
      pg.averageCalories.getD 0 > jsOrQ pr.dailyCalories 0 + 200 <;>
  simp [WeightLossCoach.assessProgress, WeightLossCoach.assessProgressSpec,
    WeightLossCoach.firstMatch, h1, h2, h3, h4, h5]

/-- C4: the calculator functions are pure and, at male, age 30, 180 lbs,
70 in, moderately_active, lose_weight, give BMR 1782.7156 (within 5 of the
quoted 1780), TDEE 2763 (within 5 of the quoted 2759), calorie target 2263
(within 5 of the quoted 2259) and protein target exactly 180; in general
TDEE is the rounded product of BMR with the multiplier table (default 1.2
for an unrecognized level) and the calorie target is TDEE-500 for
lose_weight, TDEE+300 for gain_muscle and TDEE otherwise, always an
integer in the createUserProfile pipeline. -/
theorem calculator_values :
    SimpleCalculator.calculateBMR 180 70 30 "male" = 4456789/2500
    ∧ |SimpleCalculator.calculateBMR 180 70 30 "male" - 1780| ≤ 5
    ∧ SimpleCalculator.calculateTDEE (SimpleCalculator.calculateBMR 180 70 30 "male")
        "moderately_active" = 2763
    ∧ |SimpleCalculator.calculateTDEE (SimpleCalculator.calculateBMR 180 70 30 "male")
        "moderately_active" - 2759| ≤ 5
    ∧ SimpleCalculator.calculateCalorieTarget 2763 "lose_weight" = 2263
    ∧ |SimpleCalculator.calculateCalorieTarget 2763 "lose_weight" - 2259| ≤ 5
    ∧ SimpleCalculator.calculateProteinTarget 180 "lose_weight" = 180
    ∧ (createUserProfile sampleBasicInfo).dailyCalories = some 2263
    ∧ (createUserProfile sampleBasicInfo).proteinTarget = some 180
    ∧ (∀ bmr : ℚ,
        SimpleCalculator.calculateTDEE bmr "sedentary" = (jsRound (bmr * (12/10)) : ℚ)
        ∧ SimpleCalculator.calculateTDEE bmr "lightly_active" =
            (jsRound (bmr * (1375/1000)) : ℚ)
        ∧ SimpleCalculator.calculateTDEE bmr "moderately_active" =
            (jsRound (bmr * (155/100)) : ℚ)
        ∧ SimpleCalculator.calculateTDEE bmr "very_active" =
            (jsRound (bmr * (1725/1000)) : ℚ))
    ∧ (∀ (bmr : ℚ) (level : String), level ≠ "sedentary" → level ≠ "lightly_active" →
        level ≠ "moderately_active" → level ≠ "very_active" →
        SimpleCalculator.calculateTDEE bmr level = (jsRound (bmr * (12/10)) : ℚ))
    ∧ (∀ t : ℚ,
        SimpleCalculator.calculateCalorieTarget t "lose_weight" = (jsRound (t - 500) : ℚ)
        ∧ SimpleCalculator.calculateCalorieTarget t "gain_muscle" = (jsRound (t + 300) : ℚ))
    ∧ (∀ (t : ℚ) (goal : String), goal ≠ "lose_weight" → goal ≠ "gain_muscle" →
        SimpleCalculator.calculateCalorieTarget t goal = t)
    ∧ (∀ info : BasicInfo, ∃ n : ℤ, (createUserProfile info).dailyCalories = some (n : ℚ)) := by
  have hm : SimpleCalculator.activityMultiplier "moderately_active" = 155/100 := by
    simp [SimpleCalculator.activityMultiplier]
  refine ⟨?_, ?_, ?_, ?_, ?_, ?_, ?_, ?_, ?_, ?_, ?_, ?_, ?_, ?_⟩
  · norm_num [SimpleCalculator.calculateBMR]
  · norm_num [SimpleCalculator.calculateBMR, abs_le]
  · norm_num [SimpleCalculator.calculateBMR, SimpleCalculator.calculateTDEE, hm, jsRound]
  · norm_num [SimpleCalculator.calculateBMR, SimpleCalculator.calculateTDEE, hm,
      jsRound, abs_le]
  · norm_num [SimpleCalculator.calculateCalorieTarget, jsRound]
  · norm_num [SimpleCalculator.calculateCalorieTarget, jsRound, abs_le]
  · norm_num [SimpleCalculator.calculateProteinTarget, jsRound]
  · norm_num [createUserProfile, sampleBasicInfo, SimpleCalculator.calculateBMR,
      SimpleCalculator.calculateTDEE, hm, SimpleCalculator.calculateCalorieTarget, jsRound]
  · norm_num [createUserProfile, sampleBasicInfo, SimpleCalculator.calculateProteinTarget,
      jsRound]
  · intro bmr
    refine ⟨?_, ?_, ?_, ?_⟩ <;>
      simp [SimpleCalculator.calculateTDEE, SimpleCalculator.activityMultiplier]
  · intro bmr level hl1 hl2 hl3 hl4
    simp [SimpleCalculator.calculateTDEE, SimpleCalculator.activityMultiplier,
      hl1, hl2, hl3, hl4]
  · intro t
    refine ⟨?_, ?_⟩ <;> simp [SimpleCalculator.calculateCalorieTarget]
  · intro t goal hg1 hg2
    simp [SimpleCalculator.calculateCalorieTarget, hg1, hg2]
  · intro info
    by_cases hg1 : info.goal = "lose_weight"
    · exact ⟨jsRound (SimpleCalculator.calculateTDEE
          (SimpleCalculator.calculateBMR info.weight info.height info.age info.gender)
          info.activityLevel - 500), by
        simp [createUserProfile, SimpleCalculator.calculateCalorieTarget, hg1]⟩
    · by_cases hg2 : info.goal = "gain_muscle"
      · exact ⟨jsRound (SimpleCalculator.calculateTDEE
            (SimpleCalculator.calculateBMR info.weight info.height info.age info.gender)
            info.activityLevel + 300), by
          simp [createUserProfile, SimpleCalculator.calculateCalorieTarget, hg1, hg2]⟩
      · exact ⟨jsRound (SimpleCalculator.calculateBMR info.weight info.height info.age
            info.gender * SimpleCalculator.activityMultiplier info.activityLevel), by
          simp [createUserProfile, SimpleCalculator.calculateCalorieTarget,
            SimpleCalculator.calculateTDEE, hg1, hg2]⟩

/-- C4 witness: the unrecognized-level default multiplier and the
maintenance calorie branch instantiated at concrete inputs. -/
theorem calculator_values_witness :
    SimpleCalculator.calculateTDEE 100 "super_active" = (jsRound ((100 : ℚ) * (12/10)) : ℚ)
    ∧ SimpleCalculator.calculateCalorieTarget 2000 "get_fit" = 2000 := by
  obtain ⟨-, -, -, -, -, -, -, -, -, -, hdef, -, htgt, -⟩ := calculator_values
  exact ⟨hdef 100 "super_active" (by decide) (by decide) (by decide) (by decide),
    htgt 2000 "get_fit" (by decide) (by decide)⟩

/-- C5: contrary to the claim, getDailyAdvice with a defined last workout
and daysAgo = 0 returns the generic starter message, not the recovery tip:
the guard if (!lastWorkout || !daysAgo) treats the number 0 as falsy, so
the dedicated daysAgo === 0 recovery branch of the source is unreachable. -/
theorem getDailyAdvice_zero_days :
    WeightLossCoach.getDailyAdvice sampleProfile (some "Run") (some 0) =
      "Ready to start your fitness journey? Let\x27s begin with a simple 20-minute walk today!"
    ∧ WeightLossCoach.getDailyAdvice sampleProfile (some "Run") (some 0) ≠
      "Great job on today\x27s workout! Make sure to get good protein within 2 hours and stay hydrated." := by
  constructor <;> decide

/-- C6: the recent-activities summary computes a pace string only for runs
with positive distance: a run of 5000 m in 1500 s has pace 5:00/km, and
any activity with nonpositive distance or a non-run type has no pace
field. -/
theorem pace_guard_and_format :
    (∀ a : StravaActivity, a.type = "Run" → a.distance = 5000 → a.moving_time = 1500 →
      avgPacePerKm a = some "5:00/km")
    ∧ (∀ a : StravaActivity, a.distance ≤ 0 ∨ a.type ≠ "Run" → avgPacePerKm a = none)
    ∧ (∀ a : StravaActivity, avgPacePerKm a ≠ none → a.type = "Run" ∧ a.distance > 0) := by
  refine ⟨?_, ?_, ?_⟩
  · intro a h1 h2 h3
    unfold avgPacePerKm
    rw [if_pos ⟨h1, by rw [h2]; norm_num⟩, h2, h3]
    have hq : (1500 / (5000 / 1000) : ℚ) = 300 := by norm_num
    rw [hq]
    have hf : jsFloor ((300 : ℚ) / 60) = 5 := by norm_num [jsFloor]
    have hr : jsRound (jsFmod (300 : ℚ) 60) = 0 := by
      norm_num [jsRound, jsFmod, jsTrunc]
    simp only [formatPace]
    rw [hf, hr]
    rfl
  · intro a h
    unfold avgPacePerKm
    rw [if_neg]
    rintro ⟨hr, hd⟩
    rcases h with h | h
    · exact absurd hd (not_lt.mpr h)
    · exact h hr
  · intro a h
    by_cases hc : a.type = "Run" ∧ a.distance > 0
    · exact hc
    · exact absurd (by unfold avgPacePerKm; rw [if_neg hc]) h

/-- C6 witness: the two directions of the pace guard at concrete
activities. -/
theorem pace_guard_and_format_witness :
    avgPacePerKm { type := "Run", distance := 5000, moving_time := 1500 } = some "5:00/km"
    ∧ avgPacePerKm { type := "Ride", distance := 0, moving_time := 1200 } = none :=
  ⟨pace_guard_and_format.1 _ rfl rfl rfl,
   pace_guard_and_format.2.1 _ (Or.inl (by norm_num))⟩

/-- C8 counterexample: the training-load analysis requests page size 50,
which exceeds the provider maximum of 30, contradicting the claim that no
activity-listing operation requests more than 30 per page. -/
theorem trainingLoad_perPage_counterexample :
    trainingLoadPerPage = 50 ∧ ¬ trainingLoadPerPage ≤ 30 := by
  constructor
  · rfl
  · norm_num [trainingLoadPerPage]

/-- C8 amended: get_recent_activities sends per_page = min(count, 30)
(count defaulting to 10 when absent or 0), which never exceeds 30, but
analyzeTrainingLoad sends the literal per_page = 50. -/
theorem per_page_amended :
    (∀ c : ℚ, recentActivitiesPerPage c = min c 30)
    ∧ (∀ c : ℚ, recentActivitiesPerPage c ≤ 30)
    ∧ recentActivitiesCount none = 10
    ∧ recentActivitiesCount (some 0) = 10
    ∧ trainingLoadPerPage = 50 := by
  refine ⟨fun c => rfl, fun c => min_le_right _ _, rfl, by decide, rfl⟩

/-- C10: the pace formatter rounds the seconds remainder independently of
the floored minutes, so 299.5 seconds per km renders as 4:60/km rather
than carrying into 5:00/km. -/
theorem formatPace_seconds_sixty : formatPace (599/2) = "4:60/km" := by
  have hf : jsFloor ((599 : ℚ) / 2 / 60) = 4 := by norm_num [jsFloor]
  have hr : jsRound (jsFmod ((599 : ℚ) / 2) 60) = 60 := by
    norm_num [jsRound, jsFmod, jsTrunc]
  simp only [formatPace]
  rw [hf, hr]
  rfl

/-- C2: with a cached (truthy) token, a validation failure with HTTP 401
triggers exactly one refresh attempt, any run makes at most one refresh
attempt, any other validation error (another status, or no response at
all) returns the cached token with no refresh, and a refresh failure is
the fatal re-authorize error exactly for a 400 response whose errors
contain code invalid for field refresh_token, the generic retryable error
otherwise; the two messages are distinct. -/
theorem token_refresh_behavior :
    (∀ (st : TMState) (r : RefreshOutcome), st.accessToken ≠ "" →
      (getValidAccessToken st (.httpError 401) r).2 = 1)
    ∧ (∀ (st : TMState) (v : ValidationOutcome) (r : RefreshOutcome),
        (getValidAccessToken st v r).2 ≤ 1)
    ∧ (∀ (st : TMState) (r : RefreshOutcome) (s : ℕ), st.accessToken ≠ "" → s ≠ 401 →
        getValidAccessToken st (.httpError s) r = (.ok st.accessToken, 0))
    ∧ (∀ (st : TMState) (r : RefreshOutcome), st.accessToken ≠ "" →
        getValidAccessToken st .networkError r = (.ok st.accessToken, 0))
    ∧ (∀ (st : TMState) (errs : List StravaApiError),
        (errs.any fun e => e.code == "invalid" && e.field == "refresh_token") = true →
        refreshAccessToken st (.failure (some 400) (some errs)) = .error fatalRefreshMsg)
    ∧ (∀ (st : TMState) (status : Option ℕ) (merrs : Option (List StravaApiError)),
        (status = some 400 → ∀ errs, merrs = some errs →
          (errs.any fun e => e.code == "invalid" && e.field == "refresh_token") = false) →
        refreshAccessToken st (.failure status merrs) = .error genericRefreshMsg)
    ∧ fatalRefreshMsg ≠ genericRefreshMsg := by
  refine ⟨?_, ?_, ?_, ?_, ?_, ?_, ?_⟩
  · intro st r h
    have hb : ((st.accessToken != "") && isTokenValid (.httpError 401)) = false := by
      simp [isTokenValid]
    unfold getValidAccessToken
    rw [hb]
    simp only [Bool.false_eq_true, if_false]
    cases hr : refreshAccessToken st r with
    | ok p => rfl
    | error m => rfl
  · intro st v r
    unfold getValidAccessToken
    split
    · simp
    · split <;> simp
  · intro st r s h hs
    have hb : ((st.accessToken != "") && isTokenValid (.httpError s)) = true := by
      simp [isTokenValid, hs, h]
    unfold getValidAccessToken
    rw [hb]
    simp
  · intro st r h
    have hb : ((st.accessToken != "") && isTokenValid .networkError) = true := by
      simp [isTokenValid, h]
    unfold getValidAccessToken
    rw [hb]
    simp
  · intro st errs h
    simp [refreshAccessToken, h]
  · intro st status merrs h
    unfold refreshAccessToken
    cases merrs with
    | none => rfl
    | some errs =>
      by_cases h4 : status = some 400
      · simp [h4, h h4 errs rfl]
      · simp [h4]
  · decide

/-- C2 witness: the 401, non-401, network-error, fatal-refresh and
generic-refresh behaviors at a concrete token-manager state. -/
theorem token_refresh_behavior_witness :
    (getValidAccessToken ⟨"id", "secret", "rtok", "atok", 0⟩ (.httpError 401)
      (.failure none none)).2 = 1
    ∧ getValidAccessToken ⟨"id", "secret", "rtok", "atok", 0⟩ (.httpError 500)
        (.failure none none) = (.ok "atok", 0)
    ∧ getValidAccessToken ⟨"id", "secret", "rtok", "atok", 0⟩ .networkError
        (.failure none none) = (.ok "atok", 0)
    ∧ refreshAccessToken ⟨"id", "secret", "rtok", "atok", 0⟩
        (.failure (some 400) (some [⟨"invalid", "refresh_token"⟩])) = .error fatalRefreshMsg
    ∧ refreshAccessToken ⟨"id", "secret", "rtok", "atok", 0⟩
        (.failure (some 500) none) = .error genericRefreshMsg := by
  obtain ⟨h1, h2, h3, h4, h5, h6, h7⟩ := token_refresh_behavior
  exact ⟨h1 _ _ (by decide), h3 _ _ 500 (by decide) (by decide), h4 _ _ (by decide),
    h5 _ _ (by decide), h6 _ _ _ (fun hc => absurd hc (by decide))⟩

/-- The dates of the history after an upsert: unchanged when today already
has an entry, extended by today at the end otherwise. -/
theorem logProgress_map_date (p : UserProfile) (today : String) (args : LogArgs)
    (l : List ProgressEntry) :
    (logProgress p today args l).map (fun e => e.date) =
      if today ∈ l.map (fun e => e.date) then l.map (fun e => e.date)
      else l.map (fun e => e.date) ++ [today] := by
  induction l with
  | nil => simp [logProgress, newProgressEntry]
  | cons a rest ih =>
    by_cases h : a.date = today
    · simp [logProgress, h, updateEntry]
    · have h1 : today ≠ a.date := fun hc => h hc.symm
      simp only [logProgress, if_neg h, List.map_cons, ih]
      by_cases hm : today ∈ rest.map (fun e => e.date)
      · simp [hm, h1]
      · simp [hm, h1]

/-- Upserting preserves the at-most-one-entry-per-date invariant. -/
theorem logProgress_dates_nodup (p : UserProfile) (today : String) (args : LogArgs)
    (l : List ProgressEntry) (hl : (l.map (fun e => e.date)).Nodup) :
    ((logProgress p today args l).map (fun e => e.date)).Nodup := by
  rw [logProgress_map_date]
  by_cases hm : today ∈ l.map (fun e => e.date)
  · rwa [if_pos hm]
  · rw [if_neg hm]
    exact (List.perm_append_comm.nodup_iff).mpr (List.nodup_cons.mpr ⟨hm, hl⟩)

/-- An upsert on an already present date keeps the history length. -/
theorem logProgress_length_of_mem (p : UserProfile) (today : String) (args : LogArgs)
    (l : List ProgressEntry) (hm : today ∈ l.map (fun e => e.date)) :
    (logProgress p today args l).length = l.length := by
  have hcongr := congrArg List.length (logProgress_map_date p today args l)
  rw [if_pos hm] at hcongr
  simpa using hcongr

/-- An upsert on an already present date replaces that date's entry with
its field-merged update. -/
theorem entryFor_logProgress (p : UserProfile) (today : String) (args : LogArgs)
    (l : List ProgressEntry) (e : ProgressEntry) (he : entryFor today l = some e) :
    entryFor today (logProgress p today args l) = some (updateEntry args e) := by
  induction l with
  | nil => simp [entryFor] at he
  | cons a rest ih =>
    by_cases h : a.date = today
    · rw [entryFor, List.find?_cons_of_pos _ (by simp [h])] at he
      obtain rfl : a = e := by simpa using he
      simp only [logProgress, if_pos h]
      rw [entryFor, List.find?_cons_of_pos _ (by simp [updateEntry, h])]
    · rw [entryFor, List.find?_cons_of_neg _ (by simp [h])] at he
      simp only [logProgress, if_neg h]
      rw [entryFor, List.find?_cons_of_neg _ (by simp [h])]
      exact ih he

/-- Entries of every other date are untouched by an upsert. -/
theorem logProgress_filter_other (p : UserProfile) (today : String) (args : LogArgs)
    (d : String) (hd : d ≠ today) (l : List ProgressEntry) :
    (logProgress p today args l).filter (fun e => e.date = d) =
      l.filter (fun e => e.date = d) := by
  have hd1 : today ≠ d := fun hc => hd hc.symm
  induction l with
  | nil => simp [logProgress, newProgressEntry, hd1]
  | cons a rest ih =>
    by_cases h : a.date = today
    · simp [logProgress, h, updateEntry, hd1]
    · simp only [logProgress, if_neg h]
      rw [List.filter_cons, List.filter_cons, ih]

/-- An upsert on an absent date appends the defaulted new entry. -/
theorem logProgress_append_of_not_mem (p : UserProfile) (today : String)
    (args : LogArgs) (l : List ProgressEntry)
    (hm : today ∉ l.map (fun e => e.date)) :
    logProgress p today args l = l ++ [newProgressEntry p today args] := by
  induction l with
  | nil => rfl
  | cons a rest ih =>
    have h1 : a.date ≠ today := by
      intro hc
      exact hm (by simp [hc])
    have h2 : today ∉ rest.map (fun e => e.date) := by
      intro hc
      exact hm (by simp [hc])
    simp only [logProgress, if_neg h1, ih h2]
    rfl

/-- C3: the progress store upserts by calendar-date key: any sequence of
logs starting from the empty history keeps at most one entry per date
(and a single upsert preserves that invariant); logging a date that
already has an entry keeps the length, merges the supplied truthy fields
into that entry, leaves unsupplied fields and all other dates untouched;
and logging an absent date appends exactly one entry whose weight defaults
to the profile baseline weight and whose workout count defaults to zero
when those fields are not supplied. -/
theorem progress_upsert :
    (∀ (p : UserProfile) (calls : List (String × LogArgs)),
      ((logSequence p calls).map (fun e => e.date)).Nodup)
    ∧ (∀ (p : UserProfile) (today : String) (args : LogArgs) (l : List ProgressEntry),
        (l.map (fun e => e.date)).Nodup →
        ((logProgress p today args l).map (fun e => e.date)).Nodup)
    ∧ (∀ (p : UserProfile) (today : String) (args : LogArgs) (l : List ProgressEntry),
        today ∈ l.map (fun e => e.date) →
        (logProgress p today args l).length = l.length)
    ∧ (∀ (p : UserProfile) (today : String) (args : LogArgs) (l : List ProgressEntry)
        (e : ProgressEntry), entryFor today l = some e →
        entryFor today (logProgress p today args l) = some (updateEntry args e))
    ∧ (∀ (p : UserProfile) (today : String) (args : LogArgs) (d : String)
        (l : List ProgressEntry), d ≠ today →
        (logProgress p today args l).filter (fun e => e.date = d) =
          l.filter (fun e => e.date = d))
    ∧ (∀ (p : UserProfile) (today : String) (args : LogArgs) (l : List ProgressEntry),
        today ∉ l.map (fun e => e.date) →
        logProgress p today args l = l ++ [newProgressEntry p today args])
    ∧ (∀ (args : LogArgs) (e : ProgressEntry), args.weight = none →
        (updateEntry args e).weight = e.weight)
    ∧ (∀ (args : LogArgs) (e : ProgressEntry), args.workoutsToday = none →
        (updateEntry args e).workouts = e.workouts)
    ∧ (∀ (args : LogArgs) (e : ProgressEntry), args.calories = none →
        (updateEntry args e).calories = e.calories)
    ∧ (∀ (args : LogArgs) (e : ProgressEntry) (w : ℚ), args.weight = some w → w ≠ 0 →
        (updateEntry args e).weight = w)
    ∧ (∀ (p : UserProfile) (today : String) (args : LogArgs), args.weight = none →
        (newProgressEntry p today args).weight = p.weight)
    ∧ (∀ (p : UserProfile) (today : String) (args : LogArgs), args.workoutsToday = none →
        (newProgressEntry p today args).workouts = 0) := by
  refine ⟨?_, logProgress_dates_nodup, logProgress_length_of_mem, entryFor_logProgress,
    fun p t a d l hd => logProgress_filter_other p t a d hd l,
    logProgress_append_of_not_mem, ?_, ?_, ?_, ?_, ?_, ?_⟩
  · intro p calls
    suffices hstep : ∀ (l : List ProgressEntry), (l.map (fun e => e.date)).Nodup →
        ((calls.foldl (fun acc c => logProgress p c.1 c.2 acc) l).map
          (fun e => e.date)).Nodup by
      exact hstep [] (by simp)
    induction calls with
    | nil => intro l hl; simpa using hl
    | cons c rest ih =>
      intro l hl
      exact ih _ (logProgress_dates_nodup p c.1 c.2 l hl)
  · intro args e h
    simp [updateEntry, truthyQ, h]
  · intro args e h
    simp [updateEntry, truthyQ, h]
  · intro args e h
    simp [updateEntry, truthyQ, h]
  · intro args e w h hw
    simp [updateEntry, truthyQ, h, hw]
  · intro p today args h
    simp [newProgressEntry, jsOrQ, truthyQ, h]
  · intro p today args h
    simp [newProgressEntry, jsOrQ, truthyQ, h]

/-- C3 witness: the upsert behaviors at a concrete one-entry history:
logging the same date again keeps one entry and merges fields, logging a
new date appends the defaulted entry. -/
theorem progress_upsert_witness :
    ((logProgress sampleProfile "2026-10-10" ⟨some 179, none, none, none⟩
        [⟨"2026-10-10", 180, 1, none⟩]).map (fun e => e.date)).Nodup
    ∧ (logProgress sampleProfile "2026-10-10" ⟨some 179, none, none, none⟩
        [⟨"2026-10-10", 180, 1, none⟩]).length = 1
    ∧ entryFor "2026-10-10" (logProgress sampleProfile "2026-10-10"
        ⟨some 179, none, none, none⟩ [⟨"2026-10-10", 180, 1, none⟩]) =
        some (updateEntry ⟨some 179, none, none, none⟩ ⟨"2026-10-10", 180, 1, none⟩)
    ∧ (logProgress sampleProfile "2026-10-10" ⟨some 179, none, none, none⟩
        [⟨"2026-10-10", 180, 1, none⟩]).filter (fun e => e.date = "2026-10-09") =
        ([⟨"2026-10-10", 180, 1, none⟩] : List ProgressEntry).filter
          (fun e => e.date = "2026-10-09")
    ∧ logProgress sampleProfile "2026-10-11" ⟨some 179, none, none, none⟩
        [⟨"2026-10-10", 180, 1, none⟩] =
        [⟨"2026-10-10", 180, 1, none⟩] ++
          [newProgressEntry sampleProfile "2026-10-11" ⟨some 179, none, none, none⟩]
    ∧ (updateEntry ⟨none, some 2, none, none⟩ ⟨"d", 180, 1, none⟩).weight = 180
    ∧ (updateEntry ⟨none, some 2, none, none⟩ ⟨"d", 180, 1, none⟩).calories = none
    ∧ (updateEntry ⟨some 179, none, none, none⟩ ⟨"d", 180, 1, none⟩).workouts = 1
    ∧ (updateEntry ⟨some 179, none, none, none⟩ ⟨"d", 180, 1, none⟩).weight = 179
    ∧ (newProgressEntry sampleProfile "2026-10-11" ⟨none, none, some 1800, none⟩).weight =
        sampleProfile.weight
    ∧ (newProgressEntry sampleProfile "2026-10-11" ⟨none, none, some 1800, none⟩).workouts
        = 0 := by
  obtain ⟨-, h2, h3, h4, h5, h6, h7, h8, h9, h10, h11, h12⟩ := progress_upsert
  exact ⟨h2 _ _ _ _ (by decide), h3 _ _ _ _ (by decide), h4 _ _ _ _ _ (by decide),
    h5 _ _ _ _ _ (by decide), h6 _ _ _ _ (by decide), h7 _ _ rfl, h9 _ _ rfl,
    h8 _ _ rfl, h10 _ _ 179 rfl (by norm_num), h11 _ _ _ rfl, h12 _ _ _ rfl⟩

/-- C9: every error thrown during dispatch or tool execution is caught at
the protocol boundary and turned into a successful response whose single
text payload is the Error: prefix followed by the thrown message; an
unknown tool name yields the Unknown tool error without invoking any
implementation, a get_activity_details call with a missing (falsy)
activity_id yields the named validation error before any implementation
(hence any network call) runs, and a successful implementation result is
passed through unchanged. -/
theorem protocol_error_marshaling :
    (∀ (env : String → CallArgs → Except String CallResponse) (args : CallArgs)
        (name : String), name ∉ toolNames →
        handleCallTool env name args =
          (⟨[⟨"text", "Error: Unknown tool: " ++ name⟩]⟩, false))
    ∧ (∀ (env : String → CallArgs → Except String CallResponse) (args : CallArgs),
        truthyS args.activity_id = false →
        handleCallTool env "get_activity_details" args =
          (⟨[⟨"text", "Error: activity_id is required"⟩]⟩, false))
    ∧ (∀ (env : String → CallArgs → Except String CallResponse) (name : String)
        (args : CallArgs) (msg : String), name ∈ toolNames →
        (name = "get_activity_details" → truthyS args.activity_id = true) →
        env name args = .error msg →
        handleCallTool env name args = (⟨[⟨"text", "Error: " ++ msg⟩]⟩, true))
    ∧ (∀ (env : String → CallArgs → Except String CallResponse) (name : String)
        (args : CallArgs) (r : CallResponse), name ∈ toolNames →
        (name = "get_activity_details" → truthyS args.activity_id = true) →
        env name args = .ok r →
        handleCallTool env name args = (r, true)) := by
  refine ⟨?_, ?_, ?_, ?_⟩
  · intro env args name h
    have hne : name ≠ "get_activity_details" := fun hc => h (hc ▸ (by decide))
    simp [handleCallTool, dispatchTool, hne, h]
    rw [← String.append_assoc]
    rfl
  · intro env args h
    simp [handleCallTool, dispatchTool, h]
  · intro env name args msg hmem hgad herr
    by_cases hn : name = "get_activity_details"
    · subst hn
      simp [handleCallTool, dispatchTool, hgad rfl, herr]
    · simp [handleCallTool, dispatchTool, hn, hmem, herr]
  · intro env name args r hmem hgad hok
    by_cases hn : name = "get_activity_details"
    · subst hn
      simp [handleCallTool, dispatchTool, hgad rfl, hok]
    · simp [handleCallTool, dispatchTool, hn, hmem, hok]

/-- C9 witness: the unknown-tool, missing-argument, thrown-error and
success paths at concrete calls. -/
theorem protocol_error_marshaling_witness :
    handleCallTool (fun _ _ => .error "boom") "nope" ⟨none, none, none⟩ =
      (⟨[⟨"text", "Error: Unknown tool: nope"⟩]⟩, false)
    ∧ handleCallTool (fun _ _ => .error "boom") "get_activity_details" ⟨none, none, none⟩ =
      (⟨[⟨"text", "Error: activity_id is required"⟩]⟩, false)
    ∧ handleCallTool (fun _ _ => .error "boom") "get_recent_activities" ⟨none, none, none⟩ =
      (⟨[⟨"text", "Error: boom"⟩]⟩, true)
    ∧ handleCallTool (fun _ _ => .ok ⟨[⟨"text", "ok"⟩]⟩) "get_rag_stats" ⟨none, none, none⟩ =
      (⟨[⟨"text", "ok"⟩]⟩, true) := by
  obtain ⟨h1, h2, h3, h4⟩ := protocol_error_marshaling
  exact ⟨h1 _ _ _ (by decide), h2 _ _ rfl,
    h3 _ _ _ _ (by decide) (fun hc => absurd hc (by decide)) rfl,
    h4 _ _ _ _ (by decide) (fun hc => absurd hc (by decide)) rfl⟩

/-- A dot product of a vector with itself is nonnegative. -/
theorem dotProduct_self_nonneg : ∀ v : List ℚ, 0 ≤ dotProduct v v
  | [] => le_of_eq rfl
  | a :: v => by
    have ih := dotProduct_self_nonneg v
    simp only [dotProduct]
    have ha := mul_self_nonneg a
    linarith

/-- A vector of zero magnitude has zero dot product with everything. -/
theorem dotProduct_zero_left : ∀ (v w : List ℚ), dotProduct v v = 0 → dotProduct v w = 0
  | [], _, _ => rfl
  | _ :: _, [], _ => rfl
  | a :: v, b :: w, h => by
    simp only [dotProduct] at h ⊢
    have h1 := mul_self_nonneg a
    have h2 := dotProduct_self_nonneg v
    have ha : a = 0 := by nlinarith
    have hv : dotProduct v v = 0 := by nlinarith
    rw [ha, dotProduct_zero_left v w hv]
    ring

/-- The dot product is symmetric. -/
theorem dotProduct_comm : ∀ (v w : List ℚ), dotProduct v w = dotProduct w v
  | [], [] => rfl
  | [], _ :: _ => rfl
  | _ :: _, [] => rfl
  | a :: v, b :: w => by
    simp only [dotProduct, dotProduct_comm v w]
    ring

/-- Symmetric form of dotProduct_zero_left. -/
theorem dotProduct_zero_right (v w : List ℚ) (h : dotProduct w w = 0) :
    dotProduct v w = 0 := by
  rw [dotProduct_comm]
  exact dotProduct_zero_left w v h

/-- cosineSimilarity is 0 whenever either magnitude is 0 (the reachable
NaN situation guarded by .. || 0 in the source). -/
theorem cosineSimilarity_of_magSq_zero (v w : List ℚ)
    (h : dotProduct v v = 0 ∨ dotProduct w w = 0) : cosineSimilarity v w = 0 := by
  rcases h with h | h
  · unfold cosineSimilarity
    rw [dotProduct_zero_left v w h]
    simp
  · unfold cosineSimilarity
    rw [dotProduct_zero_right v w h]
    simp

/-- cosineSimilarity vanishes with the dot product. -/
theorem cosineSimilarity_of_dot_zero (v w : List ℚ) (h : dotProduct v w = 0) :
    cosineSimilarity v w = 0 := by
  unfold cosineSimilarity
  rw [h]
  simp

/-- A strictly positive dot product gives a strictly positive cosine
similarity. -/
theorem cosineSimilarity_pos (v w : List ℚ) (h : 0 < dotProduct v w) :
    0 < cosineSimilarity v w := by
  have hv : 0 < dotProduct v v := by
    rcases (dotProduct_self_nonneg v).lt_or_eq with h1 | h1
    · exact h1
    · rw [dotProduct_zero_left v w h1.symm] at h
      exact absurd h (lt_irrefl 0)
  have hw : 0 < dotProduct w w := by
    rcases (dotProduct_self_nonneg w).lt_or_eq with h1 | h1
    · exact h1
    · rw [dotProduct_zero_right v w h1.symm] at h
      exact absurd h (lt_irrefl 0)
  unfold cosineSimilarity
  apply div_pos
  · exact_mod_cast h
  · apply mul_pos
    · apply Real.sqrt_pos.mpr
      exact_mod_cast hv
    · apply Real.sqrt_pos.mpr
      exact_mod_cast hw

/-- The descending-score comparator of the JS sort. -/
theorem sortByRelevance_sorted (docs : List DocumentChunk) :
    (sortByRelevance docs).Sorted (fun a b => scoreOf b ≤ scoreOf a) := by
  haveI h1 : IsTotal DocumentChunk (fun a b => scoreOf b ≤ scoreOf a) :=
    ⟨fun a b => le_total (scoreOf b) (scoreOf a)⟩
  haveI h2 : IsTrans DocumentChunk (fun a b => scoreOf b ≤ scoreOf a) :=
    ⟨fun _ _ _ hab hbc => le_trans hbc hab⟩
  exact List.sorted_insertionSort _ _

/-- Evaluation of the stable insertion sort on a two-element list. -/
theorem insertionSort_pair {α : Type} (r : α → α → Prop) [DecidableRel r] (x y : α) :
    List.insertionSort r [x, y] = if r x y then [x, y] else [y, x] := by
  simp [List.insertionSort, List.orderedInsert]

/-- In a two-document store, a strictly higher cosine score on the second
document puts it at the head of the search result. -/
theorem searchEnhanced_pair_head_second (d1 d2 : DocumentChunk) (query : String)
    (k : ℕ) (hk : 1 ≤ k)
    (hgt : cosineSimilarity (EnhancedRag.getMockEmbedding query) d1.embedding <
      cosineSimilarity (EnhancedRag.getMockEmbedding query) d2.embedding) :
    (searchEnhancedKnowledge ⟨[d1, d2]⟩ query k).head? =
      some { d2 with
             relevance_score :=
               some (cosineSimilarity (EnhancedRag.getMockEmbedding query) d2.embedding) } := by
  obtain ⟨m, rfl⟩ : ∃ m, k = m + 1 := ⟨k - 1, by omega⟩
  unfold searchEnhancedKnowledge sortByRelevance scoreDocs
  rw [if_neg (by simp)]
  simp only [List.map_cons, List.map_nil]
  rw [insertionSort_pair]
  rw [if_neg (by simpa [scoreOf] using not_le.mpr hgt)]
  simp [List.take, List.head?]

/-- In a two-document store, a cosine score on the first document at least
that of the second keeps it at the head of the search result (the JS sort
is stable). -/
theorem searchEnhanced_pair_head_first (d1 d2 : DocumentChunk) (query : String)
    (k : ℕ) (hk : 1 ≤ k)
    (hle : cosineSimilarity (EnhancedRag.getMockEmbedding query) d2.embedding ≤
      cosineSimilarity (EnhancedRag.getMockEmbedding query) d1.embedding) :
    (searchEnhancedKnowledge ⟨[d1, d2]⟩ query k).head? =
      some { d1 with
             relevance_score :=
               some (cosineSimilarity (EnhancedRag.getMockEmbedding query) d1.embedding) } := by
  obtain ⟨m, rfl⟩ : ∃ m, k = m + 1 := ⟨k - 1, by omega⟩
  unfold searchEnhancedKnowledge sortByRelevance scoreDocs
  rw [if_neg (by simp)]
  simp only [List.map_cons, List.map_nil]
  rw [insertionSort_pair]
  rw [if_pos (by simpa [scoreOf] using hle)]
  simp [List.take, List.head?]

/-- C7: the retrieval layer ranks by cosine similarity, descending, and
returns the top K documents (default 3 static and 5 dynamic); cosine
similarity is 0 whenever either vector has zero magnitude; in a
two-document store, a document whose keyword overlap with the query is
positive while the other overlaps not at all is ranked first regardless
of its position in the store; and searching the dynamic system with an
empty document set returns the empty list. -/
theorem retrieval_ranking :
    (∀ v1 v2 : List ℚ, dotProduct v1 v1 = 0 ∨ dotProduct v2 v2 = 0 →
      cosineSimilarity v1 v2 = 0)
    ∧ (∀ (query : String) (k : ℕ), searchEnhancedKnowledge ⟨[]⟩ query k = [])
    ∧ (∀ (sys : TrueRAGSystem) (query : String),
        (searchSimilarDocuments sys query).length ≤ 3)
    ∧ (∀ (sys : EnhancedRAGSystem) (query : String),
        (searchEnhancedKnowledge sys query).length ≤ 5)
    ∧ (∀ (sys : TrueRAGSystem) (query : String) (k : ℕ),
        (searchSimilarDocuments sys query k).Sorted (fun a b => scoreOf b ≤ scoreOf a))
    ∧ (∀ (sys : EnhancedRAGSystem) (query : String) (k : ℕ),
        (searchEnhancedKnowledge sys query k).Sorted (fun a b => scoreOf b ≤ scoreOf a))
    ∧ (∀ (d1 d2 : DocumentChunk) (query : String) (k : ℕ), 1 ≤ k →
        dotProduct (EnhancedRag.getMockEmbedding query) d1.embedding = 0 →
        0 < dotProduct (EnhancedRag.getMockEmbedding query) d2.embedding →
        (searchEnhancedKnowledge ⟨[d1, d2]⟩ query k).head?.map (fun d => d.id) =
          some d2.id)
    ∧ (∀ (d1 d2 : DocumentChunk) (query : String) (k : ℕ), 1 ≤ k →
        0 < dotProduct (EnhancedRag.getMockEmbedding query) d1.embedding →
        dotProduct (EnhancedRag.getMockEmbedding query) d2.embedding = 0 →
        (searchEnhancedKnowledge ⟨[d1, d2]⟩ query k).head?.map (fun d => d.id) =
          some d1.id) := by
  refine ⟨cosineSimilarity_of_magSq_zero, ?_, ?_, ?_, ?_, ?_, ?_, ?_⟩
  · intro query k
    simp [searchEnhancedKnowledge]
  · intro sys query
    unfold searchSimilarDocuments
    rw [List.length_take]
    exact min_le_left _ _
  · intro sys query
    unfold searchEnhancedKnowledge
    split
    · simp
    · rw [List.length_take]
      exact min_le_left _ _
  · intro sys query k
    unfold searchSimilarDocuments
    exact List.Pairwise.sublist (List.take_sublist _ _) (sortByRelevance_sorted _)
  · intro sys query k
    unfold searchEnhancedKnowledge
    split
    · exact List.sorted_nil
    · exact List.Pairwise.sublist (List.take_sublist _ _) (sortByRelevance_sorted _)
  · intro d1 d2 query k hk h1 h2
    have hgt : cosineSimilarity (EnhancedRag.getMockEmbedding query) d1.embedding <
        cosineSimilarity (EnhancedRag.getMockEmbedding query) d2.embedding := by
      rw [cosineSimilarity_of_dot_zero _ _ h1]
      exact cosineSimilarity_pos _ _ h2
    rw [searchEnhanced_pair_head_second d1 d2 query k hk hgt]
    rfl
  · intro d1 d2 query k hk h1 h2
    have hle : cosineSimilarity (EnhancedRag.getMockEmbedding query) d2.embedding ≤
        cosineSimilarity (EnhancedRag.getMockEmbedding query) d1.embedding := by
      rw [cosineSimilarity_of_dot_zero _ _ h2]
      exact (cosineSimilarity_pos _ _ h1).le
    rw [searchEnhanced_pair_head_first d1 d2 query k hk hle]
    rfl

/-- C7 witness: a zero-magnitude input to the similarity, and the fully
overlapping versus non-overlapping document pair ranked with the
overlapping document first in both store orders. -/
theorem retrieval_ranking_witness :
    cosineSimilarity [0, 0] [1, 2] = 0
    ∧ (searchEnhancedKnowledge
        ⟨[⟨"doc-protein", "protein", "nutrition", "s1", none,
             EnhancedRag.getMockEmbedding "protein"⟩,
          ⟨"doc-fitness", "fitness", "general", "s2", none,
             EnhancedRag.getMockEmbedding "fitness"⟩]⟩ "fitness" 5).head?.map
        (fun d => d.id) = some "doc-fitness"
    ∧ (searchEnhancedKnowledge
        ⟨[⟨"doc-fitness", "fitness", "general", "s2", none,
             EnhancedRag.getMockEmbedding "fitness"⟩,
          ⟨"doc-protein", "protein", "nutrition", "s1", none,
             EnhancedRag.getMockEmbedding "protein"⟩]⟩ "fitness" 5).head?.map
        (fun d => d.id) = some "doc-fitness" := by
  obtain ⟨h1, -, -, -, -, -, h7, h8⟩ := retrieval_ranking
  have hef : EnhancedRag.getMockEmbedding "fitness" =
      [1,0,0,0,0,0,0,0,0,0,0,0,0,0,0,0,0,0,0,0,0,0,0,0,0,
       0,0,0,0,0,0,0,0,0,0,0,0,0,0,0,0,0,0,0,0,0,0,0,0,0] := rfl
  have hep : EnhancedRag.getMockEmbedding "protein" =
      [0,0,0,0,0,0,1,0,0,0,0,0,0,0,0,0,0,0,0,0,0,0,0,0,0,
       0,0,0,0,0,0,0,0,0,0,0,0,0,0,0,0,0,0,0,0,0,0,0,0,0] := rfl
  have hpf : dotProduct (EnhancedRag.getMockEmbedding "fitness")
      (EnhancedRag.getMockEmbedding "protein") = 0 := by
    rw [hef, hep]
    norm_num [dotProduct]
  have hff : 0 < dotProduct (EnhancedRag.getMockEmbedding "fitness")
      (EnhancedRag.getMockEmbedding "fitness") := by
    rw [hef]
    norm_num [dotProduct]
  exact ⟨h1 [0, 0] [1, 2] (Or.inl (by norm_num [dotProduct])),
    h7 _ _ "fitness" 5 (by norm_num) hpf hff,
    h8 _ _ "fitness" 5 (by norm_num) hff hpf⟩
